import Mathlib

/-!
Verification of the CDH deploy orchestrator (`sahara/plugins/cdh/deploy.py`).

The Python module is shallowly embedded: pure configuration computations
become Lean functions over association lists (Python dicts with insertion
order and unique keys), and the side-effecting orchestration functions
become trace-producing functions into a list of `Event`s, parameterized by
a record `Ext` of external collaborators (`cloudera_utils`, `plugin utils`,
`db_helper`, `config_helper`, remote commands), which are out of scope of
the module itself.
-/

set_option autoImplicit false
set_option linter.unusedVariables false

namespace Sahara

/-- A Python dict with string keys, modelled as an insertion-ordered
association list with unique keys. -/
abbrev Dict (α : Type) := List (String × α)

/-- One service's configuration dict (key → value). -/
abbrev Configs := Dict String

/-- A service-name → configs dict, the shape merged by `_merge_dicts`. -/
abbrev ServiceConfs := Dict Configs

/-- Python dict lookup `d.get(k)`. -/
def dict_get {α : Type} (d : Dict α) (k : String) : Option α :=
  (d.find? (fun p => p.1 == k)).map (·.2)

/-- Python dict assignment `d[k] = v`: overwrite in place when `k` is present
(keeping its position), append otherwise. -/
def dict_set {α : Type} (d : Dict α) (k : String) (v : α) : Dict α :=
  if (d.find? (fun p => p.1 == k)).isSome then
    d.map (fun p => if p.1 == k then (k, v) else p)
  else
    d ++ [(k, v)]

/-- Python dict `d.update(e)`: entries of `e` overwrite entries of `d`
key by key, in `e`'s iteration order. -/
def dict_update {α : Type} (d e : Dict α) : Dict α :=
  e.foldl (fun acc p => dict_set acc p.1 p.2) d

/-- The keys of a dict, in order. -/
def keys {α : Type} (d : Dict α) : List String :=
  d.map Prod.fst

/-- A model dict is well formed when its keys are unique, as for a real
Python dict; for `ServiceConfs` also each inner dict's keys are unique. -/
def WF (d : ServiceConfs) : Prop :=
  (keys d).Nodup ∧ ∀ p ∈ d, (keys p.2).Nodup

instance : DecidablePred WF := fun d =>
  inferInstanceAs (Decidable ((keys d).Nodup ∧ ∀ p ∈ d, (keys p.2).Nodup))

/-- Two-level lookup into a `ServiceConfs`: the value of `k` for service
`s`, where a missing service behaves as an empty dict. -/
def conf_get (d : ServiceConfs) (s k : String) : Option String :=
  dict_get ((dict_get d s).getD []) k

/-- The inner `update` closure of `_merge_dicts`: fold one layer `cfg`
into the accumulator `res` (` for service, configs in cfg: ...
res[service].update(configs)`). -/
def merge_update (res cfg : ServiceConfs) : ServiceConfs :=
  cfg.foldl (fun res p => dict_set res p.1 (dict_update ((dict_get res p.1).getD []) p.2)) res

/-- The function `_merge_dicts(a, b)`: start from an empty dict, update with `a`, then with `b`. -/
def _merge_dicts (a b : ServiceConfs) : ServiceConfs :=
  merge_update (merge_update [] a) b

/-! ## Data model (cluster topology) -/

/-- A node group: storage mount points, user-supplied per-node-group
configuration overrides, and the list of role (process) names. -/
structure NodeGroup where
  storage_paths : List String
  node_configs : ServiceConfs
  node_processes : List String
deriving DecidableEq, Repr

/-- A provisioned machine. -/
structure Instance where
  instance_name : String
  fqdn : String
  internal_ip : String
  node_group : NodeGroup
deriving DecidableEq, Repr

/-- The cluster fields read by this module. Instances are reached through
the external collaborator `gu.get_instances` (see `Ext`). -/
structure Cluster where
  name : String
  cluster_configs : ServiceConfs
deriving DecidableEq, Repr

/-- External collaborators of `deploy.py`: the service-name constants and
helpers of `cloudera_utils` (`cu`), the topology helpers of plugin `utils`
(`pu`), `db_helper`, `config_helper` (`c_helper`) and the remote-command
probe used by the module. They are opaque to this module, so the embedding
is parameterized over them. -/
structure Ext where
  HDFS_SERVICE_NAME : String
  YARN_SERVICE_NAME : String
  OOZIE_SERVICE_NAME : String
  HIVE_SERVICE_NAME : String
  HUE_SERVICE_NAME : String
  SPARK_SERVICE_NAME : String
  get_role_name : Instance → String → String
  get_service : String → Instance → String
  get_manager : Cluster → Instance
  get_namenode : Cluster → Instance
  get_oozie : Cluster → Option Instance
  get_hive_metastore : Cluster → Option Instance
  get_hue : Cluster → Option Instance
  get_spark_historyserver : Cluster → Option Instance
  get_instances : Cluster → List Instance
  get_hive_db_password : Cluster → String
  is_swift_enabled : Cluster → Bool
  is_pre_installed_cdh : Instance → Bool

/-! ## `_get_configs` -/

/-- The helper `get_hadoop_dirs(mount_points, suffix)`:
`','.join([x + suffix for x in mount_points])`. -/
def get_hadoop_dirs (mount_points : List String) (suffix : String) : String :=
  String.intercalate "," (mount_points.map (fun x => x ++ suffix))

/-- The `ng_default_confs` dict built inside `_get_configs` when a node
group is supplied: storage-path-derived directory lists per role. -/
def ng_default_confs (paths : List String) : ServiceConfs :=
  [("NAMENODE", [("dfs_name_dir_list", get_hadoop_dirs paths "/fs/nn")]),
   ("SECONDARYNAMENODE", [("fs_checkpoint_dir_list", get_hadoop_dirs paths "/fs/snn")]),
   ("DATANODE", [("dfs_data_dir_list", get_hadoop_dirs paths "/fs/dn")]),
   ("NODEMANAGER", [("yarn_nodemanager_local_dirs", get_hadoop_dirs paths "/yarn/local")])]

/-- The initial `all_confs` literal of `_get_configs`: static cross-service
defaults. -/
def static_cross_confs (ext : Ext) : ServiceConfs :=
  [("OOZIE", [("mapreduce_yarn_service", ext.YARN_SERVICE_NAME)]),
   ("YARN", [("hdfs_service", ext.HDFS_SERVICE_NAME)]),
   ("HUE", [("hive_service", ext.HIVE_SERVICE_NAME),
            ("oozie_service", ext.OOZIE_SERVICE_NAME)]),
   ("SPARK_ON_YARN", [("yarn_service", ext.YARN_SERVICE_NAME)])]

/-- The full merged `all_confs` computed by `_get_configs` before the
final per-service projection (`all_confs.get(service, {})`). -/
def _get_all_confs (ext : Ext) (cluster : Option Cluster) (node_group : Option NodeGroup) :
    ServiceConfs :=
  let all_confs : ServiceConfs := static_cross_confs ext
  let all_confs :=
    match node_group with
    | none => all_confs
    | some ng =>
        let ng_user_confs := ng.node_configs
        let all_confs := _merge_dicts all_confs ng_user_confs
        _merge_dicts all_confs (ng_default_confs ng.storage_paths)
  match cluster with
  | none => all_confs
  | some c =>
      let hive_confs : ServiceConfs :=
        [("HIVE",
          [("hive_metastore_database_type", "postgresql"),
           ("hive_metastore_database_host", (ext.get_manager c).internal_ip),
           ("hive_metastore_database_port", "7432"),
           ("hive_metastore_database_password", ext.get_hive_db_password c),
           ("mapreduce_yarn_service", ext.YARN_SERVICE_NAME)])]
      let hue_confs : ServiceConfs :=
        [("HUE", [("hue_webhdfs", ext.get_role_name (ext.get_namenode c) "NAMENODE")])]
      let all_confs := _merge_dicts all_confs hue_confs
      let all_confs := _merge_dicts all_confs hive_confs
      _merge_dicts all_confs c.cluster_configs

/-- The function `_get_configs(service, cluster=None, node_group=None)`. -/
def _get_configs (ext : Ext) (service : String) (cluster : Option Cluster)
    (node_group : Option NodeGroup) : Configs :=
  (dict_get (_get_all_confs ext cluster node_group) service).getD []

/-! ## Orchestration traces

The side-effecting orchestration functions are embedded as functions that
return the ordered list of the observable remote / control-plane
operations they perform. -/

/-- One observable operation issued by the orchestrator. -/
inductive Event where
  | configureOs (inst : String)
  | installPackages (inst : String)
  | startAgent (inst : String)
  | startManager
  | awaitAgents
  | configureManager
  | createCluster (name ver : String)
  | createService (name ty : String)
  | updateServiceConfig (name : String) (configs : Configs)
  | createRole (service roleName process fqdn : String)
  | updateRoleConfig (roleName : String) (configs : Configs)
  | deployConfigs
  | configureSwift (inst : String)
  | updateConfigs (inst : String)
  | refreshNodes (roleType service : String)
  | startRoles (service roleName : String)
  | decommissionNodes (roleType : String) (names : List String)
  | deleteInstances
  | formatNamenode
  | startService (name : String)
  | createYarnJobHistoryDir
  | installExtjs
  | createOozieDb
  | installOozieSharelib
  | configureHive
  | createHiveMetastoreDb
  | createHiveDirs
  | configureSpark
deriving DecidableEq, Repr

/-- The function `_add_role(instance, process)`: skip `MANAGER`, otherwise create the
role under its owning service and apply its merged per-node-group
configuration. -/
def _add_role (ext : Ext) (inst : Instance) (process : String) : List Event :=
  if process ∈ ["MANAGER"] then []
  else
    [.createRole (ext.get_service process inst) (ext.get_role_name inst process)
       process inst.fqdn,
     .updateRoleConfig (ext.get_role_name inst process)
       (_get_configs ext process none (some inst.node_group))]

/-- The function `_configure_instance(instance)`: add every role declared by the
instance's node group. -/
def _configure_instance (ext : Ext) (inst : Instance) : List Event :=
  inst.node_group.node_processes.flatMap (_add_role ext inst)

/-- The function `_create_services(cluster)`. -/
def _create_services (ext : Ext) (cluster : Cluster) : List Event :=
  [.createCluster cluster.name "CDH5",
   .createService ext.HDFS_SERVICE_NAME "HDFS",
   .createService ext.YARN_SERVICE_NAME "YARN",
   .createService ext.OOZIE_SERVICE_NAME "OOZIE"]
  ++ (if (ext.get_hive_metastore cluster).isSome then
        [.createService ext.HIVE_SERVICE_NAME "HIVE"] else [])
  ++ (if (ext.get_hue cluster).isSome then
        [.createService ext.HUE_SERVICE_NAME "HUE"] else [])
  ++ (if (ext.get_spark_historyserver cluster).isSome then
        [.createService ext.SPARK_SERVICE_NAME "SPARK_ON_YARN"] else [])

/-- The function `_configure_services(cluster)`. -/
def _configure_services (ext : Ext) (cluster : Cluster) : List Event :=
  [.updateServiceConfig ext.HDFS_SERVICE_NAME (_get_configs ext "HDFS" (some cluster) none),
   .updateServiceConfig ext.YARN_SERVICE_NAME (_get_configs ext "YARN" (some cluster) none),
   .updateServiceConfig ext.OOZIE_SERVICE_NAME (_get_configs ext "OOZIE" (some cluster) none)]
  ++ (if (ext.get_hive_metastore cluster).isSome then
        [.updateServiceConfig ext.HIVE_SERVICE_NAME (_get_configs ext "HIVE" (some cluster) none)]
      else [])
  ++ (if (ext.get_hue cluster).isSome then
        [.updateServiceConfig ext.HUE_SERVICE_NAME (_get_configs ext "HUE" (some cluster) none)]
      else [])
  ++ (if (ext.get_spark_historyserver cluster).isSome then
        [.updateServiceConfig ext.SPARK_SERVICE_NAME
           (_get_configs ext "SPARK_ON_YARN" (some cluster) none)]
      else [])

/-- The function `configure_cluster(cluster)`. -/
def configure_cluster (ext : Ext) (cluster : Cluster) : List Event :=
  let instances := ext.get_instances cluster
  (if ext.is_pre_installed_cdh (ext.get_manager cluster) then []
   else instances.map (fun i => .configureOs i.instance_name)
        ++ instances.map (fun i => .installPackages i.instance_name))
  ++ instances.map (fun i => .startAgent i.instance_name)
  ++ [.startManager, .awaitAgents, .configureManager]
  ++ _create_services ext cluster
  ++ _configure_services ext cluster
  ++ instances.flatMap (_configure_instance ext)
  ++ [.deployConfigs]
  ++ (if ext.is_swift_enabled cluster then
        instances.map (fun i => .configureSwift i.instance_name) else [])

/-- The function `scale_cluster(cluster, instances)`: immediate return on an empty
delta set, otherwise agent bring-up followed by per-instance role
addition, config push, conditional refresh/start, and the swift bridge. -/
def scale_cluster (ext : Ext) (cluster : Cluster) (instances : List Instance) : List Event :=
  match instances with
  | [] => []
  | i0 :: _ =>
      (if ext.is_pre_installed_cdh i0 then []
       else instances.map (fun i => .configureOs i.instance_name)
            ++ instances.map (fun i => .installPackages i.instance_name))
      ++ instances.map (fun i => .startAgent i.instance_name)
      ++ [.awaitAgents]
      ++ instances.flatMap (fun inst =>
           _configure_instance ext inst
           ++ [.updateConfigs inst.instance_name]
           ++ (if "DATANODE" ∈ inst.node_group.node_processes then
                 [.refreshNodes "DATANODE" ext.HDFS_SERVICE_NAME] else [])
           ++ [.configureSwift inst.instance_name]
           ++ (if "DATANODE" ∈ inst.node_group.node_processes then
                 [.startRoles (ext.get_service "DATANODE" inst)
                    (ext.get_role_name inst "DATANODE")] else [])
           ++ (if "NODEMANAGER" ∈ inst.node_group.node_processes then
                 [.startRoles (ext.get_service "NODEMANAGER" inst)
                    (ext.get_role_name inst "NODEMANAGER")] else []))

/-- The `dns` list built by `decommission_cluster`: the data-node role
names of the instances to remove. -/
def decommission_dns (ext : Ext) (instances : List Instance) : List String :=
  instances.filterMap (fun i =>
    if "DATANODE" ∈ i.node_group.node_processes then some (ext.get_role_name i "DATANODE")
    else none)

/-- The `nms` list built by `decommission_cluster`: the node-manager role
names of the instances to remove. -/
def decommission_nms (ext : Ext) (instances : List Instance) : List String :=
  instances.filterMap (fun i =>
    if "NODEMANAGER" ∈ i.node_group.node_processes then some (ext.get_role_name i "NODEMANAGER")
    else none)

/-- The function `decommission_cluster(cluster, instances)`. -/
def decommission_cluster (ext : Ext) (cluster : Cluster) (instances : List Instance) :
    List Event :=
  let dns := decommission_dns ext instances
  let nms := decommission_nms ext instances
  (if dns ≠ [] then [.decommissionNodes "DATANODE" dns] else [])
  ++ (if nms ≠ [] then [.decommissionNodes "NODEMANAGER" nms] else [])
  ++ [.deleteInstances,
      .refreshNodes "DATANODE" ext.HDFS_SERVICE_NAME,
      .refreshNodes "NODEMANAGER" ext.YARN_SERVICE_NAME]

/-- The function `start_cluster(cluster)`. -/
def start_cluster (ext : Ext) (cluster : Cluster) : List Event :=
  [.formatNamenode, .startService ext.HDFS_SERVICE_NAME,
   .createYarnJobHistoryDir, .startService ext.YARN_SERVICE_NAME]
  ++ (if (ext.get_oozie cluster).isSome then
        [.installExtjs, .createOozieDb, .installOozieSharelib,
         .startService ext.OOZIE_SERVICE_NAME] else [])
  ++ (if (ext.get_hive_metastore cluster).isSome then
        [.configureHive, .createHiveMetastoreDb, .createHiveDirs,
         .startService ext.HIVE_SERVICE_NAME] else [])
  ++ (if (ext.get_hue cluster).isSome then [.startService ext.HUE_SERVICE_NAME] else [])
  ++ (if (ext.get_spark_historyserver cluster).isSome then
        [.configureSpark, .startService ext.SPARK_SERVICE_NAME] else [])

/-- The service names a trace acts on through `create_service`,
`update_config` or `start_service` calls. -/
def servicesOf (t : List Event) : List String :=
  t.filterMap (fun e =>
    match e with
    | .createService n _ => some n
    | .updateServiceConfig n _ => some n
    | .startService n => some n
    | _ => none)

/-- Modelled from the spec (Topology-Conditional Service Planner, spec
section 4.4): HDFS, resource-management and workflow services are
unconditional; metastore, UI and analytics-history services are included
iff some instance declares the corresponding role. Used to compare the
three phases against the planner they are all supposed to re-derive. -/
def plannedServices (ext : Ext) (cluster : Cluster) : List String :=
  [ext.HDFS_SERVICE_NAME, ext.YARN_SERVICE_NAME, ext.OOZIE_SERVICE_NAME]
  ++ (if (ext.get_hive_metastore cluster).isSome then [ext.HIVE_SERVICE_NAME] else [])
  ++ (if (ext.get_hue cluster).isSome then [ext.HUE_SERVICE_NAME] else [])
  ++ (if (ext.get_spark_historyserver cluster).isSome then [ext.SPARK_SERVICE_NAME] else [])

/-! ## Readiness barriers

Both `_await_agents` and the wait loop at the end of
`_start_cloudera_manager` are `while elapsed < timeout` loops that
evaluate a readiness predicate once per iteration and sleep `interval`
seconds when it is false, raising `HadoopProvisionError` when the loop
exhausts its deadline. Time is modelled discretely: the predicate is a
function of the poll index `n`, evaluated (instantaneously) at elapsed
time `n * interval`, and each sleep advances the clock by `interval`.
The result is `(some n, elapsed)` on success at poll `n`, or
`(none, elapsed)` for the `HadoopProvisionError` exit. -/

/-- The loop body, structurally recursive on `fuel` (an upper bound on
the number of iterations; the loop itself terminates because `elapsed`
grows by `interval ≥ 1` each iteration). -/
def poll_aux (timeout interval : Nat) (pred : Nat → Bool) : Nat → Nat → Option Nat × Nat
  | n, 0 => (none, n * interval)
  | n, fuel + 1 =>
      if n * interval < timeout then
        if pred n then (some n, n * interval)
        else poll_aux timeout interval pred (n + 1) fuel
      else (none, n * interval)

/-- The whole `while elapsed < timeout: ... sleep(interval)` loop. -/
def poll_loop (timeout interval : Nat) (pred : Nat → Bool) : Option Nat × Nat :=
  poll_aux timeout interval pred 0 (timeout + 1)

/-- The function `_await_agents(instances)`: poll every 5 seconds, for at most 300
seconds, until every instance's fqdn is registered with the manager
(`hosts_at n` is the manager's host list at poll `n`). -/
def _await_agents (instances : List Instance) (hosts_at : Nat → List String) :
    Option Nat × Nat :=
  poll_loop 300 5 (fun n => (instances.map (fun i => i.fqdn)).all (fun h => (hosts_at n).contains h))

/-- The wait loop of `_start_cloudera_manager`: poll every 2 seconds, for
at most 300 seconds, until a telnet connection to the manager's API port
succeeds; an `IOError` (connection refused, `connect_ok n = false`) is
caught and retried after the sleep. -/
def _start_cloudera_manager_wait (connect_ok : Nat → Bool) : Option Nat × Nat :=
  poll_loop 300 2 connect_ok

/-! ## `get_open_ports` -/

/-- The fixed `ports_map` table of `get_open_ports`. -/
def ports_map : Dict (List Nat) :=
  [("MANAGER", [7180, 7182, 7183, 7432, 7184, 8084, 8086, 10101,
                9997, 9996, 8087, 9998, 9999, 8085, 9995, 9994]),
   ("NAMENODE", [8020, 8022, 50070, 50470]),
   ("SECONDARYNAMENODE", [50090, 50495]),
   ("DATANODE", [50010, 1004, 50075, 1006, 50020]),
   ("RESOURCEMANAGER", [8030, 8031, 8032, 8033, 8088]),
   ("NODEMANAGER", [8040, 8041, 8042]),
   ("JOBHISTORY", [10020, 19888]),
   ("HIVEMETASTORE", [9083]),
   ("HIVESERVER2", [10000]),
   ("HUE_SERVER", [8888]),
   ("OOZIE_SERVER", [11000, 11001]),
   ("SPARK_YARN_HISTORY_SERVER", [18088])]

/-- The function `get_open_ports(node_group)`: start from the CM agent port and extend
with the table entry of every role present in the table. -/
def get_open_ports (node_group : NodeGroup) : List Nat :=
  node_group.node_processes.foldl (fun ports process =>
    match dict_get ports_map process with
    | some l => ports ++ l
    | none => ports) [9000]

/-- Left-biased choice on options, the merge result of one key. -/
def opt_or {α : Type} (a b : Option α) : Option α :=
  match a with
  | some v => some v
  | none => b

/-! ## Concrete fixtures (used by witnesses and counterexamples) -/

/-- A node group with one mount point and a user-supplied `DATANODE`
override colliding with the computed storage-path default. -/
def ng1 : NodeGroup :=
  ⟨["/mnt"], [("DATANODE", [("dfs_data_dir_list", "custom")])], ["DATANODE"]⟩

/-- A data-node + node-manager instance. -/
def i1 : Instance :=
  ⟨"i1", "i1.local", "10.0.0.3", ⟨[], [], ["DATANODE", "NODEMANAGER"]⟩⟩

/-- A manager instance. -/
def mgr0 : Instance := ⟨"m", "m.local", "10.0.0.1", ⟨[], [], ["MANAGER"]⟩⟩

/-- A name-node instance. -/
def nn0 : Instance := ⟨"nn", "nn.local", "10.0.0.2", ⟨[], [], ["NAMENODE"]⟩⟩

/-- A concrete collaborator record: the `cloudera_utils` service-name
constants, simple role/service naming, no optional (hive/hue/spark/oozie)
instances, swift disabled, nothing pre-installed. -/
def ext0 : Ext :=
  ⟨"hdfs01", "yarn01", "oozie01", "hive01", "hue01", "spark_on_yarn01",
   fun i p => i.instance_name ++ "_" ++ p,
   fun p _ => p ++ "_svc",
   fun _ => mgr0, fun _ => nn0,
   fun _ => none, fun _ => none, fun _ => none, fun _ => none,
   fun _ => [i1], fun _ => "pw", fun _ => false, fun _ => false⟩

/-- A cluster with no cluster-wide overrides. -/
def c0 : Cluster := ⟨"c", []⟩

/-! ## Dictionary lemmas -/

theorem opt_or_none_right {α : Type} (a : Option α) : opt_or a none = a := by
  cases a <;> rfl

theorem dict_get_nil {α : Type} (k : String) : dict_get ([] : Dict α) k = none := rfl

theorem dict_get_cons {α : Type} (p : String × α) (d : Dict α) (k : String) :
    dict_get (p :: d) k = if p.1 = k then some p.2 else dict_get d k := by
  simp only [dict_get, List.find?]
  by_cases h : p.1 = k
  · simp [h]
  · simp [h, beq_eq_false_iff_ne.mpr h]

theorem dict_get_eq_none_iff {α : Type} (d : Dict α) (k : String) :
    dict_get d k = none ↔ k ∉ keys d := by
  induction d with
  | nil => simp [dict_get_nil, keys]
  | cons p d ih =>
      rw [dict_get_cons]
      by_cases h : p.1 = k
      · simp [h, keys]
      · simp [h, keys, ih, Ne.symm h]

theorem dict_get_map_set_of_ne {α : Type} (d : Dict α) (k k' : String) (v : α) (h : k' ≠ k) :
    dict_get (d.map (fun p => if p.1 == k then (k, v) else p)) k' = dict_get d k' := by
  induction d with
  | nil => rfl
  | cons p d ih =>
      by_cases hp : p.1 = k
      · have hfp : (if p.1 == k then (k, v) else p) = (k, v) := by simp [hp]
        rw [List.map_cons, hfp, dict_get_cons, dict_get_cons]
        rw [if_neg (fun hkk : (k, v).1 = k' => h hkk.symm),
            if_neg (fun hpk : p.1 = k' => h (hp ▸ hpk).symm)]
        exact ih
      · have hfp : (if p.1 == k then (k, v) else p) = p := by simp [hp]
        rw [List.map_cons, hfp, dict_get_cons, dict_get_cons]
        by_cases hpk : p.1 = k'
        · rw [if_pos hpk, if_pos hpk]
        · rw [if_neg hpk, if_neg hpk]
          exact ih

theorem dict_get_map_set_self {α : Type} (d : Dict α) (k : String) (v : α)
    (hfind : (d.find? (fun p => p.1 == k)).isSome) :
    dict_get (d.map (fun p => if p.1 == k then (k, v) else p)) k = some v := by
  induction d with
  | nil => simp at hfind
  | cons p d ih =>
      by_cases hp : p.1 = k
      · have hfp : (if p.1 == k then (k, v) else p) = (k, v) := by simp [hp]
        rw [List.map_cons, hfp, dict_get_cons, if_pos rfl]
      · have hfp : (if p.1 == k then (k, v) else p) = p := by simp [hp]
        have hfind' : (d.find? (fun p => p.1 == k)).isSome := by
          simpa [List.find?, beq_eq_false_iff_ne.mpr hp] using hfind
        rw [List.map_cons, hfp, dict_get_cons, if_neg hp]
        exact ih hfind'

theorem dict_get_append_single {α : Type} (d : Dict α) (k k' : String) (v : α)
    (hnone : dict_get d k = none) :
    dict_get (d ++ [(k, v)]) k' = if k' = k then some v else dict_get d k' := by
  induction d with
  | nil =>
      by_cases hk : k' = k
      · subst hk
        simp [dict_get_cons]
      · rw [List.nil_append, dict_get_cons, dict_get_nil, if_neg hk,
            if_neg (fun hkk : (k, v).1 = k' => hk hkk.symm)]
  | cons p d ih =>
      rw [dict_get_cons] at hnone
      by_cases hp : p.1 = k
      · rw [if_pos hp] at hnone
        exact absurd hnone (by simp)
      · rw [if_neg hp] at hnone
        rw [List.cons_append, dict_get_cons, dict_get_cons]
        by_cases hpk : p.1 = k'
        · have hk : ¬ (k' = k) := fun hkk => hp (hpk.trans hkk)
          rw [if_pos hpk, if_neg hk, if_pos hpk]
        · rw [if_neg hpk, if_neg hpk, ih hnone]

theorem dict_get_dict_set {α : Type} (d : Dict α) (k k' : String) (v : α) :
    dict_get (dict_set d k v) k' = if k' = k then some v else dict_get d k' := by
  unfold dict_set
  split
  next hfind =>
      by_cases h : k' = k
      · subst h
        rw [if_pos rfl]
        exact dict_get_map_set_self d k' v hfind
      · rw [if_neg h]
        exact dict_get_map_set_of_ne d k k' v h
  next hfind =>
      have hnone : dict_get d k = none := by
        cases hf : d.find? (fun p => p.1 == k) with
        | none => simp [dict_get, hf]
        | some p => rw [hf] at hfind; simp at hfind
      exact dict_get_append_single d k k' v hnone

theorem dict_get_dict_update {α : Type} (d e : Dict α) (k : String)
    (he : (keys e).Nodup) :
    dict_get (dict_update d e) k = opt_or (dict_get e k) (dict_get d k) := by
  induction e generalizing d with
  | nil => simp [dict_update, dict_get_nil, opt_or]
  | cons p e ih =>
      have he' : (p.1 :: keys e).Nodup := by
        simpa only [keys, List.map_cons] using he
      have hnd : (keys e).Nodup := (List.nodup_cons.mp he').2
      have hnotmem : p.1 ∉ keys e := (List.nodup_cons.mp he').1
      have hstep : dict_update d (p :: e) = dict_update (dict_set d p.1 p.2) e := by
        simp [dict_update]
      rw [hstep, ih _ hnd, dict_get_cons]
      by_cases hk : p.1 = k
      · subst hk
        have : dict_get e p.1 = none := (dict_get_eq_none_iff e p.1).mpr hnotmem
        simp [this, dict_get_dict_set, opt_or]
      · rw [if_neg hk, dict_get_dict_set, if_neg (fun hkp : k = p.1 => hk hkp.symm)]

theorem dict_get_merge_update (res cfg : ServiceConfs) (s : String)
    (h : (keys cfg).Nodup) :
    dict_get (merge_update res cfg) s =
      match dict_get cfg s with
      | none => dict_get res s
      | some c => some (dict_update ((dict_get res s).getD []) c) := by
  induction cfg generalizing res with
  | nil => simp [merge_update, dict_get_nil]
  | cons p cfg ih =>
      have h' : (p.1 :: keys cfg).Nodup := by
        simpa only [keys, List.map_cons] using h
      have hnd : (keys cfg).Nodup := (List.nodup_cons.mp h').2
      have hnotmem : p.1 ∉ keys cfg := (List.nodup_cons.mp h').1
      have hstep : merge_update res (p :: cfg) =
          merge_update (dict_set res p.1 (dict_update ((dict_get res p.1).getD []) p.2)) cfg := by
        simp [merge_update]
      rw [hstep, ih _ hnd, dict_get_cons]
      by_cases hk : p.1 = s
      · subst hk
        have : dict_get cfg p.1 = none := (dict_get_eq_none_iff cfg p.1).mpr hnotmem
        simp [this, dict_get_dict_set]
      · rw [if_neg hk, dict_get_dict_set, if_neg (fun hkp : s = p.1 => hk hkp.symm)]

theorem dict_get_merge_update_none (res cfg : ServiceConfs) (s : String)
    (h : (keys cfg).Nodup) (hs : dict_get cfg s = none) :
    dict_get (merge_update res cfg) s = dict_get res s := by
  rw [dict_get_merge_update res cfg s h, hs]

theorem dict_get_merge_update_some (res cfg : ServiceConfs) (s : String) (c : Configs)
    (h : (keys cfg).Nodup) (hs : dict_get cfg s = some c) :
    dict_get (merge_update res cfg) s =
      some (dict_update ((dict_get res s).getD []) c) := by
  rw [dict_get_merge_update res cfg s h, hs]

theorem inner_nodup_of_dict_get (d : ServiceConfs) (s : String) (c : Configs)
    (hin : ∀ p ∈ d, (keys p.2).Nodup) (h : dict_get d s = some c) :
    (keys c).Nodup := by
  unfold dict_get at h
  cases hf : d.find? (fun p => p.1 == s) with
  | none => rw [hf] at h; simp at h
  | some p =>
      rw [hf] at h
      have h2 : p.2 = c := by simpa using h
      have hmem : p ∈ d := List.mem_of_find?_eq_some hf
      have := hin p hmem
      rwa [h2] at this

/-- The per-key semantics of `_merge_dicts`: right-biased union, service by
service. -/
theorem conf_get_merge (a b : ServiceConfs) (s k : String) (ha : WF a) (hb : WF b) :
    conf_get (_merge_dicts a b) s k = opt_or (conf_get b s k) (conf_get a s k) := by
  obtain ⟨hak, hain⟩ := ha
  obtain ⟨hbk, hbin⟩ := hb
  cases hbs : dict_get b s with
  | none =>
      have hbv : conf_get b s k = none := by
        unfold conf_get; rw [hbs]; rfl
      cases has : dict_get a s with
      | none =>
          have hav : conf_get a s k = none := by
            unfold conf_get; rw [has]; rfl
          have hmv : conf_get (_merge_dicts a b) s k = none := by
            unfold _merge_dicts conf_get
            rw [dict_get_merge_update_none _ b s hbk hbs,
                dict_get_merge_update_none _ a s hak has]
            rfl
          rw [hbv, hav, hmv]
          rfl
      | some ca =>
          have hca : (keys ca).Nodup := inner_nodup_of_dict_get a s ca hain has
          have hav : conf_get a s k = dict_get ca k := by
            unfold conf_get; rw [has]; rfl
          have hmv : conf_get (_merge_dicts a b) s k = dict_get ca k := by
            unfold _merge_dicts conf_get
            rw [dict_get_merge_update_none _ b s hbk hbs,
                dict_get_merge_update_some _ a s ca hak has]
            simp only [dict_get_nil, Option.getD_none]
            simp only [Option.getD_some, dict_get_nil, Option.getD_none]
            rw [dict_get_dict_update _ _ _ hca, dict_get_nil, opt_or_none_right]
          rw [hbv, hav, hmv]
          rfl
  | some cb =>
      have hcb : (keys cb).Nodup := inner_nodup_of_dict_get b s cb hbin hbs
      have hbv : conf_get b s k = dict_get cb k := by
        unfold conf_get; rw [hbs]; rfl
      cases has : dict_get a s with
      | none =>
          have hav : conf_get a s k = none := by
            unfold conf_get; rw [has]; rfl
          have hmv : conf_get (_merge_dicts a b) s k = opt_or (dict_get cb k) none := by
            unfold _merge_dicts conf_get
            rw [dict_get_merge_update_some _ b s cb hbk hbs]
            simp only [Option.getD_some]
            rw [dict_get_merge_update_none _ a s hak has]
            simp only [dict_get_nil, Option.getD_none]
            rw [dict_get_dict_update _ _ _ hcb, dict_get_nil]
          rw [hbv, hav, hmv, opt_or_none_right]
      | some ca =>
          have hca : (keys ca).Nodup := inner_nodup_of_dict_get a s ca hain has
          have hav : conf_get a s k = dict_get ca k := by
            unfold conf_get; rw [has]; rfl
          have hmv : conf_get (_merge_dicts a b) s k
              = opt_or (dict_get cb k) (opt_or (dict_get ca k) none) := by
            unfold _merge_dicts conf_get
            rw [dict_get_merge_update_some _ b s cb hbk hbs]
            simp only [Option.getD_some]
            rw [dict_get_merge_update_some _ a s ca hak has]
            simp only [Option.getD_some, dict_get_nil, Option.getD_none]
            rw [dict_get_dict_update _ _ _ hcb, dict_get_dict_update _ _ _ hca, dict_get_nil]
          rw [hbv, hav, hmv, opt_or_none_right]

/-- The layer merged last wins: if the right layer defines `(s, k)`, the
merge resolves to its value, whatever the left layer holds. -/
theorem conf_get_merge_right (a b : ServiceConfs) (s k v : String) (hb : WF b)
    (h : conf_get b s k = some v) :
    conf_get (_merge_dicts a b) s k = some v := by
  obtain ⟨hbk, hbin⟩ := hb
  cases hbs : dict_get b s with
  | none =>
      unfold conf_get at h
      rw [hbs] at h
      simp [dict_get_nil] at h
  | some cb =>
      have hcb : dict_get cb k = some v := by
        unfold conf_get at h
        rw [hbs] at h
        simpa using h
      have hnd : (keys cb).Nodup := inner_nodup_of_dict_get b s cb hbin hbs
      unfold _merge_dicts conf_get
      rw [dict_get_merge_update_some _ b s cb hbk hbs]
      simp only [Option.getD_some]
      rw [dict_get_dict_update _ _ _ hnd, hcb]
      rfl

/-! ## Poll-loop lemmas -/

theorem poll_aux_first_true (t i : Nat) (pred : Nat → Bool) :
    ∀ (fuel n N : Nat), pred N = true → N * i < t →
      (∀ m, n ≤ m → m < N → pred m = false) → n ≤ N → N < n + fuel →
      poll_aux t i pred n fuel = (some N, N * i) := by
  intro fuel
  induction fuel with
  | zero => intro n N _ _ _ hnN hNf; omega
  | succ fuel ih =>
      intro n N hN hNt hmin hnN hNf
      rcases Nat.lt_or_ge n N with hlt | hge
      · have hnt : n * i < t :=
          Nat.lt_of_le_of_lt (Nat.mul_le_mul_right _ (Nat.le_of_lt hlt)) hNt
        have hpn : pred n = false := hmin n (Nat.le_refl n) hlt
        unfold poll_aux
        rw [if_pos hnt, if_neg (by simp [hpn])]
        exact ih (n + 1) N hN hNt (fun m hm hmN => hmin m (by omega) hmN) hlt (by omega)
      · have hEq : n = N := Nat.le_antisymm hnN hge
        subst hEq
        unfold poll_aux
        rw [if_pos hNt, if_pos hN]

theorem poll_aux_none (t i : Nat) (pred : Nat → Bool)
    (h : ∀ m, m * i < t → pred m = false) :
    ∀ fuel n, (poll_aux t i pred n fuel).1 = none := by
  intro fuel
  induction fuel with
  | zero => intro n; rfl
  | succ fuel ih =>
      intro n
      unfold poll_aux
      by_cases hc : n * i < t
      · rw [if_pos hc, if_neg (by simp [h n hc])]
        exact ih (n + 1)
      · rw [if_neg hc]

theorem poll_aux_elapsed (t i : Nat) (pred : Nat → Bool) :
    ∀ fuel n, (poll_aux t i pred n fuel).2 < t + i ∨ (poll_aux t i pred n fuel).2 = n * i := by
  intro fuel
  induction fuel with
  | zero => intro n; right; rfl
  | succ fuel ih =>
      intro n
      unfold poll_aux
      by_cases hc : n * i < t
      · rw [if_pos hc]
        by_cases hp : pred n = true
        · rw [if_pos hp]
          left
          exact Nat.lt_of_lt_of_le hc (Nat.le_add_right t i)
        · rw [if_neg hp]
          rcases ih (n + 1) with h2 | h2
          · left; exact h2
          · left
            rw [h2, Nat.succ_mul]
            exact Nat.add_lt_add_right hc i
      · rw [if_neg hc]; right; rfl

/-- The poll loop succeeds at the first poll index whose predicate holds
inside the deadline, with elapsed time `N * i`. -/
theorem poll_loop_first_true (t i N : Nat) (pred : Nat → Bool) (hi : 1 ≤ i)
    (hN : pred N = true) (hNt : N * i < t) (hmin : ∀ m, m < N → pred m = false) :
    poll_loop t i pred = (some N, N * i) := by
  unfold poll_loop
  apply poll_aux_first_true t i pred (t + 1) 0 N hN hNt
    (fun m _ hm => hmin m hm) (Nat.zero_le N)
  have h1 : N * 1 ≤ N * i := Nat.mul_le_mul_left N hi
  rw [Nat.mul_one] at h1
  omega

/-- If the predicate never holds inside the deadline, the poll loop fails
(`HadoopProvisionError`) with elapsed time at most `t + i`. -/
theorem poll_loop_never (t i : Nat) (pred : Nat → Bool) (hi : 1 ≤ i)
    (h : ∀ n, n * i < t → pred n = false) :
    (poll_loop t i pred).1 = none ∧ (poll_loop t i pred).2 ≤ t + i := by
  constructor
  · exact poll_aux_none t i pred h (t + 1) 0
  · rcases poll_aux_elapsed t i pred (t + 1) 0 with h2 | h2
    · exact Nat.le_of_lt h2
    · unfold poll_loop
      rw [h2]
      omega

theorem ng_default_confs_wf (paths : List String) : WF (ng_default_confs paths) := by
  constructor
  · rw [show keys (ng_default_confs paths)
        = ["NAMENODE", "SECONDARYNAMENODE", "DATANODE", "NODEMANAGER"] from rfl]
    decide
  · intro p hp
    simp only [ng_default_confs, List.mem_cons, List.not_mem_nil, or_false] at hp
    rcases hp with h | h | h | h <;> subst h <;> simp [keys]

/-! ## Claims -/

/-- C1, as stated, is false: in `_get_configs` the user-supplied
per-node-group overrides are merged *before* the computed storage-path
defaults, so for `DATANODE.dfs_data_dir_list`, defined by both layers, the
resolved value is the computed default `"/mnt/fs/dn"`, not the
user-supplied `"custom"`. -/
theorem C1_counterexample :
    conf_get ng1.node_configs "DATANODE" "dfs_data_dir_list" = some "custom"
    ∧ conf_get (ng_default_confs ng1.storage_paths) "DATANODE" "dfs_data_dir_list"
        = some "/mnt/fs/dn"
    ∧ dict_get (_get_configs ext0 "DATANODE" none (some ng1)) "dfs_data_dir_list"
        = some "/mnt/fs/dn"
    ∧ dict_get (_get_configs ext0 "DATANODE" none (some ng1)) "dfs_data_dir_list"
        ≠ some "custom" := by
  decide

/-- C1 (amended): in the configuration merge performed by `_get_configs`
when a node group is supplied, the per-node-group *computed* storage-path
defaults take precedence over the per-node-group user-supplied overrides:
for every service and key defined in both `node_configs` and the computed
`ng_default_confs`, the resolved value is the computed default. -/
theorem C1_theorem (ext : Ext) (ng : NodeGroup) (s k vu vd : String)
    (hu : conf_get ng.node_configs s k = some vu)
    (hd : conf_get (ng_default_confs ng.storage_paths) s k = some vd) :
    dict_get (_get_configs ext s none (some ng)) k = some vd := by
  have hrw : dict_get (_get_configs ext s none (some ng)) k
      = conf_get (_get_all_confs ext none (some ng)) s k := rfl
  have hall : _get_all_confs ext none (some ng)
      = _merge_dicts (_merge_dicts (static_cross_confs ext) ng.node_configs)
          (ng_default_confs ng.storage_paths) := rfl
  rw [hrw, hall]
  exact conf_get_merge_right _ _ s k vd (ng_default_confs_wf ng.storage_paths) hd

theorem C1_witness :
    dict_get (_get_configs ext0 "DATANODE" none (some ng1)) "dfs_data_dir_list"
      = some "/mnt/fs/dn" :=
  C1_theorem ext0 ng1 "DATANODE" "dfs_data_dir_list" "custom" "/mnt/fs/dn"
    (by decide) (by decide)

/-- C2: `_merge_dicts` is right-biased and never removes keys: for all
well-formed service-config maps `a` and `b`, for every service `s` and key
`k`, the merge resolves to `b`'s value when `b` defines it and otherwise
to `a`'s value; any key defined in either input is defined in the result;
and the `HIVE` example of the spec evaluates as stated. -/
theorem C2_theorem :
    (∀ (a b : ServiceConfs) (s k : String), WF a → WF b →
      conf_get (_merge_dicts a b) s k = opt_or (conf_get b s k) (conf_get a s k)
      ∧ ((conf_get a s k).isSome ∨ (conf_get b s k).isSome →
          (conf_get (_merge_dicts a b) s k).isSome))
    ∧ _merge_dicts [("HIVE", [("a", "1")])] [("HIVE", [("a", "2"), ("b", "3")])]
        = [("HIVE", [("a", "2"), ("b", "3")])] := by
  constructor
  · intro a b s k ha hb
    have hmain := conf_get_merge a b s k ha hb
    refine ⟨hmain, fun hsome => ?_⟩
    rw [hmain]
    cases hcb : conf_get b s k with
    | some v => rfl
    | none =>
        rcases hsome with hA | hB
        · cases hca : conf_get a s k with
          | some v => rfl
          | none => rw [hca] at hA; simp at hA
        · rw [hcb] at hB; simp at hB
  · decide

theorem C2_witness :
    conf_get (_merge_dicts [("HIVE", [("a", "1")])]
        [("HIVE", [("a", "2"), ("b", "3")])]) "HIVE" "a"
      = opt_or (conf_get [("HIVE", [("a", "2"), ("b", "3")])] "HIVE" "a")
          (conf_get [("HIVE", [("a", "1")])] "HIVE" "a") :=
  (C2_theorem.1 [("HIVE", [("a", "1")])] [("HIVE", [("a", "2"), ("b", "3")])]
    "HIVE" "a" (by decide) (by decide)).1

/-- C9: `_get_configs` is deterministic — equal topology and override
inputs give equal resolved maps — and a service name absent from the
merged `all_confs` resolves to the empty map. -/
theorem C9_theorem :
    (∀ (e1 e2 : Ext) (s1 s2 : String) (c1 c2 : Option Cluster)
        (n1 n2 : Option NodeGroup), e1 = e2 → s1 = s2 → c1 = c2 → n1 = n2 →
        _get_configs e1 s1 c1 n1 = _get_configs e2 s2 c2 n2)
    ∧ (∀ (ext : Ext) (s : String) (c : Option Cluster) (ng : Option NodeGroup),
        dict_get (_get_all_confs ext c ng) s = none → _get_configs ext s c ng = []) := by
  constructor
  · intro e1 e2 s1 s2 c1 c2 n1 n2 he hs hc hn
    subst he; subst hs; subst hc; subst hn; rfl
  · intro ext s c ng h
    unfold _get_configs
    rw [h]
    rfl

theorem C9_witness :
    _get_configs ext0 "DATANODE" none (some ng1)
      = _get_configs ext0 "DATANODE" none (some ng1)
    ∧ _get_configs ext0 "UNKNOWN_SERVICE" none none = [] :=
  ⟨C9_theorem.1 ext0 ext0 "DATANODE" "DATANODE" none none (some ng1) (some ng1)
      rfl rfl rfl rfl,
   C9_theorem.2 ext0 "UNKNOWN_SERVICE" none none (by decide)⟩

/-- Unfolding the `get_open_ports` fold: starting accumulator, then each
role's table entry appended in role order. -/
theorem open_ports_foldl (l : List String) (acc : List Nat) :
    l.foldl (fun ports process =>
      match dict_get ports_map process with
      | some pl => ports ++ pl
      | none => ports) acc
    = acc ++ l.flatMap (fun p => (dict_get ports_map p).getD []) := by
  induction l generalizing acc with
  | nil => simp
  | cons p l ih =>
      rw [List.foldl_cons, ih, List.flatMap_cons]
      cases h : dict_get ports_map p with
      | some pl => simp [List.append_assoc]
      | none => simp

theorem count_flatMap {α : Type} (f : α → List Nat) (l : List α) (x : Nat) :
    (l.flatMap f).count x = (l.map (fun a => (f a).count x)).sum := by
  induction l with
  | nil => simp
  | cons a l ih => simp [List.flatMap_cons, List.count_append, ih]

/-- C6: `scale_cluster` invoked with an empty delta set of instances is a
no-op: it returns immediately with an empty operation trace, so it
performs zero remote operations and zero control-plane calls. -/
theorem C6_theorem : ∀ (ext : Ext) (cluster : Cluster),
    scale_cluster ext cluster [] = [] := by
  intro ext cluster
  rfl

/-- C7: `get_open_ports` is a pure function returning the constant agent
port 9000 followed by, for each role of the node group present in the
fixed `ports_map` table, that role's full fixed port list; roles absent
from the table contribute nothing, and each integer of each source list
occurs exactly once per source-list occurrence (the count of any port is
its count in 9000 plus the sum of its counts in the listed tables). -/
theorem C7_theorem :
    ∀ ng : NodeGroup,
      get_open_ports ng
        = 9000 :: ng.node_processes.flatMap (fun p => (dict_get ports_map p).getD [])
      ∧ ∀ port : Nat,
          (get_open_ports ng).count port
            = (if port = 9000 then 1 else 0)
              + (ng.node_processes.map
                  (fun p => ((dict_get ports_map p).getD []).count port)).sum := by
  intro ng
  have h1 : get_open_ports ng
      = 9000 :: ng.node_processes.flatMap (fun p => (dict_get ports_map p).getD []) := by
    unfold get_open_ports
    rw [open_ports_foldl]
    rfl
  refine ⟨h1, fun port => ?_⟩
  rw [h1, List.count_cons, count_flatMap]
  by_cases hp : port = 9000
  · simp [hp, Nat.add_comm]
  · simp [hp, Ne.symm hp, Nat.add_comm]

/-- C3: for every cluster and non-empty instance set,
`decommission_cluster` issues a `decommission_nodes` request for each
non-empty role-name list (data-node and node-manager) strictly before
`delete_instances`, and after deletion it refreshes both the HDFS
(data-node) and YARN (node-manager) node lists, even when both role-name
lists are empty. -/
theorem C3_theorem (ext : Ext) (cluster : Cluster) (instances : List Instance)
    (hne : instances ≠ []) :
    ∃ j : Nat,
      (decommission_cluster ext cluster instances)[j]? = some Event.deleteInstances
      ∧ (decommission_dns ext instances ≠ [] →
          ∃ i : Nat, i < j ∧ (decommission_cluster ext cluster instances)[i]?
            = some (Event.decommissionNodes "DATANODE" (decommission_dns ext instances)))
      ∧ (decommission_nms ext instances ≠ [] →
          ∃ i : Nat, i < j ∧ (decommission_cluster ext cluster instances)[i]?
            = some (Event.decommissionNodes "NODEMANAGER" (decommission_nms ext instances)))
      ∧ (∃ k l : Nat, j < k ∧ j < l
          ∧ (decommission_cluster ext cluster instances)[k]?
              = some (Event.refreshNodes "DATANODE" ext.HDFS_SERVICE_NAME)
          ∧ (decommission_cluster ext cluster instances)[l]?
              = some (Event.refreshNodes "NODEMANAGER" ext.YARN_SERVICE_NAME)) := by
  by_cases hd : decommission_dns ext instances = []
  · by_cases hn : decommission_nms ext instances = []
    · have ht : decommission_cluster ext cluster instances
          = [Event.deleteInstances,
             Event.refreshNodes "DATANODE" ext.HDFS_SERVICE_NAME,
             Event.refreshNodes "NODEMANAGER" ext.YARN_SERVICE_NAME] := by
        simp [decommission_cluster, hd, hn]
      exact ⟨0, by rw [ht]; rfl, fun h => absurd hd h, fun h => absurd hn h,
        1, 2, by omega, by omega, by rw [ht]; rfl, by rw [ht]; rfl⟩
    · have ht : decommission_cluster ext cluster instances
          = [Event.decommissionNodes "NODEMANAGER" (decommission_nms ext instances),
             Event.deleteInstances,
             Event.refreshNodes "DATANODE" ext.HDFS_SERVICE_NAME,
             Event.refreshNodes "NODEMANAGER" ext.YARN_SERVICE_NAME] := by
        simp [decommission_cluster, hd, hn]
      exact ⟨1, by rw [ht]; rfl, fun h => absurd hd h,
        fun _ => ⟨0, by omega, by rw [ht]; rfl⟩,
        2, 3, by omega, by omega, by rw [ht]; rfl, by rw [ht]; rfl⟩
  · by_cases hn : decommission_nms ext instances = []
    · have ht : decommission_cluster ext cluster instances
          = [Event.decommissionNodes "DATANODE" (decommission_dns ext instances),
             Event.deleteInstances,
             Event.refreshNodes "DATANODE" ext.HDFS_SERVICE_NAME,
             Event.refreshNodes "NODEMANAGER" ext.YARN_SERVICE_NAME] := by
        simp [decommission_cluster, hd, hn]
      exact ⟨1, by rw [ht]; rfl, fun _ => ⟨0, by omega, by rw [ht]; rfl⟩,
        fun h => absurd hn h,
        2, 3, by omega, by omega, by rw [ht]; rfl, by rw [ht]; rfl⟩
    · have ht : decommission_cluster ext cluster instances
          = [Event.decommissionNodes "DATANODE" (decommission_dns ext instances),
             Event.decommissionNodes "NODEMANAGER" (decommission_nms ext instances),
             Event.deleteInstances,
             Event.refreshNodes "DATANODE" ext.HDFS_SERVICE_NAME,
             Event.refreshNodes "NODEMANAGER" ext.YARN_SERVICE_NAME] := by
        simp [decommission_cluster, hd, hn]
      exact ⟨2, by rw [ht]; rfl, fun _ => ⟨0, by omega, by rw [ht]; rfl⟩,
        fun _ => ⟨1, by omega, by rw [ht]; rfl⟩,
        3, 4, by omega, by omega, by rw [ht]; rfl, by rw [ht]; rfl⟩

theorem C3_witness :
    ∃ j : Nat,
      (decommission_cluster ext0 c0 [i1])[j]? = some Event.deleteInstances
      ∧ (decommission_dns ext0 [i1] ≠ [] →
          ∃ i : Nat, i < j ∧ (decommission_cluster ext0 c0 [i1])[i]?
            = some (Event.decommissionNodes "DATANODE" (decommission_dns ext0 [i1])))
      ∧ (decommission_nms ext0 [i1] ≠ [] →
          ∃ i : Nat, i < j ∧ (decommission_cluster ext0 c0 [i1])[i]?
            = some (Event.decommissionNodes "NODEMANAGER" (decommission_nms ext0 [i1])))
      ∧ (∃ k l : Nat, j < k ∧ j < l
          ∧ (decommission_cluster ext0 c0 [i1])[k]?
              = some (Event.refreshNodes "DATANODE" ext0.HDFS_SERVICE_NAME)
          ∧ (decommission_cluster ext0 c0 [i1])[l]?
              = some (Event.refreshNodes "NODEMANAGER" ext0.YARN_SERVICE_NAME)) :=
  C3_theorem ext0 c0 [i1] (by decide)

/-- C4, as stated, is false: `start_cluster` starts the workflow (OOZIE)
service only when some instance declares the oozie role, while
`_create_services` and `_configure_services` act on OOZIE unconditionally;
with no oozie instance the three phases do not act on the same service
set. -/
theorem C4_counterexample :
    ext0.OOZIE_SERVICE_NAME ∈ servicesOf (_create_services ext0 c0)
    ∧ ext0.OOZIE_SERVICE_NAME ∈ servicesOf (_configure_services ext0 c0)
    ∧ ext0.OOZIE_SERVICE_NAME ∉ servicesOf (start_cluster ext0 c0)
    ∧ servicesOf (start_cluster ext0 c0) ≠ servicesOf (_create_services ext0 c0) := by
  decide

/-- C4 (amended): the service-creation and configuration phases act on
precisely the planner's service set (HDFS, YARN, OOZIE unconditionally;
HIVE iff a metastore role, HUE iff a UI-server role, SPARK iff an
analytics history-server role is declared), each re-deriving it from the
topology; the start phase acts on the same set except that OOZIE is
started iff some instance declares the oozie role. -/
theorem C4_theorem (ext : Ext) (cluster : Cluster) :
    servicesOf (_create_services ext cluster) = plannedServices ext cluster
    ∧ servicesOf (_configure_services ext cluster) = plannedServices ext cluster
    ∧ servicesOf (start_cluster ext cluster)
        = [ext.HDFS_SERVICE_NAME, ext.YARN_SERVICE_NAME]
          ++ (if (ext.get_oozie cluster).isSome then [ext.OOZIE_SERVICE_NAME] else [])
          ++ (if (ext.get_hive_metastore cluster).isSome then [ext.HIVE_SERVICE_NAME] else [])
          ++ (if (ext.get_hue cluster).isSome then [ext.HUE_SERVICE_NAME] else [])
          ++ (if (ext.get_spark_historyserver cluster).isSome then
                [ext.SPARK_SERVICE_NAME] else []) := by
  refine ⟨?_, ?_, ?_⟩
  · unfold _create_services plannedServices servicesOf
    split_ifs <;> simp
  · unfold _configure_services plannedServices servicesOf
    split_ifs <;> simp
  · unfold start_cluster servicesOf
    split_ifs <;> simp

/-- C5: each readiness barrier succeeds at the first poll whose predicate
holds within the deadline, fails with a deadline-exceeded
`HadoopProvisionError` when the predicate never becomes true, spending at
most `timeout + interval` of modelled wall-clock; `_await_agents` is the
300-second / 5-second-interval instance and the wait loop of
`_start_cloudera_manager` the 300-second / 2-second-interval instance,
the latter retrying after a refused connection instead of failing on the
first refusal. -/
theorem C5_theorem :
    (∀ (t i N : Nat) (pred : Nat → Bool), 1 ≤ i → pred N = true → N * i < t →
        (∀ m, m < N → pred m = false) → poll_loop t i pred = (some N, N * i))
    ∧ (∀ (t i : Nat) (pred : Nat → Bool), 1 ≤ i →
        (∀ n, n * i < t → pred n = false) →
        (poll_loop t i pred).1 = none ∧ (poll_loop t i pred).2 ≤ t + i)
    ∧ (∀ (instances : List Instance) (hosts_at : Nat → List String),
        _await_agents instances hosts_at
          = poll_loop 300 5 (fun n =>
              (instances.map (fun i => i.fqdn)).all (fun h => (hosts_at n).contains h)))
    ∧ (∀ connect_ok : Nat → Bool,
        _start_cloudera_manager_wait connect_ok = poll_loop 300 2 connect_ok)
    ∧ (∀ connect_ok : Nat → Bool, connect_ok 0 = false → connect_ok 1 = true →
        _start_cloudera_manager_wait connect_ok = (some 1, 2)) := by
  refine ⟨?_, ?_, fun _ _ => rfl, fun _ => rfl, ?_⟩
  · intro t i N pred hi hN hNt hmin
    exact poll_loop_first_true t i N pred hi hN hNt hmin
  · intro t i pred hi h
    exact poll_loop_never t i pred hi h
  · intro co h0 h1
    have h := poll_loop_first_true 300 2 1 co (by omega) h1 (by norm_num)
      (fun m hm => by
        have hm0 : m = 0 := by omega
        rw [hm0]; exact h0)
    simpa using h

theorem C5_witness :
    poll_loop 300 5 (fun _ => true) = (some 0, 0 * 5)
    ∧ (poll_loop 300 2 (fun _ => false)).1 = none
    ∧ (poll_loop 300 2 (fun _ => false)).2 ≤ 300 + 2
    ∧ _start_cloudera_manager_wait (fun n => n == 1) = (some 1, 2) :=
  ⟨C5_theorem.1 300 5 0 (fun _ => true) (by omega) rfl (by norm_num)
      (fun m hm => absurd hm (Nat.not_lt_zero m)),
   (C5_theorem.2.1 300 2 (fun _ => false) (by omega) (fun _ _ => rfl)).1,
   (C5_theorem.2.1 300 2 (fun _ => false) (by omega) (fun _ _ => rfl)).2,
   C5_theorem.2.2.2.2 (fun n => n == 1) rfl rfl⟩

/-- C8: for every instance and every role declared in its node group's
process list other than `MANAGER`, `_configure_instance` creates a Role
under that role's owning service with the role's merged per-node-group
configuration applied; the `MANAGER` role contributes no role creation
and no configuration, and every created role comes from a declared
non-`MANAGER` process. -/
theorem C8_theorem (ext : Ext) (inst : Instance) :
    (∀ process ∈ inst.node_group.node_processes, process ≠ "MANAGER" →
      Event.createRole (ext.get_service process inst) (ext.get_role_name inst process)
          process inst.fqdn ∈ _configure_instance ext inst
      ∧ Event.updateRoleConfig (ext.get_role_name inst process)
          (_get_configs ext process none (some inst.node_group))
          ∈ _configure_instance ext inst)
    ∧ _add_role ext inst "MANAGER" = []
    ∧ (∀ s r p f, Event.createRole s r p f ∈ _configure_instance ext inst →
        p ≠ "MANAGER" ∧ p ∈ inst.node_group.node_processes) := by
  refine ⟨?_, by simp [_add_role], ?_⟩
  · intro process hmem hne
    have hadd : _add_role ext inst process
        = [Event.createRole (ext.get_service process inst) (ext.get_role_name inst process)
             process inst.fqdn,
           Event.updateRoleConfig (ext.get_role_name inst process)
             (_get_configs ext process none (some inst.node_group))] := by
      unfold _add_role
      rw [if_neg (by simp [hne])]
    constructor
    · exact List.mem_flatMap.mpr ⟨process, hmem, by rw [hadd]; simp⟩
    · exact List.mem_flatMap.mpr ⟨process, hmem, by rw [hadd]; simp⟩
  · intro s r p f hmem
    obtain ⟨q, hq, hin⟩ := List.mem_flatMap.mp hmem
    unfold _add_role at hin
    by_cases hqm : q ∈ ["MANAGER"]
    · rw [if_pos hqm] at hin
      simp at hin
    · rw [if_neg hqm] at hin
      have hqne : q ≠ "MANAGER" := by simpa using hqm
      simp only [List.mem_cons, List.not_mem_nil, or_false] at hin
      rcases hin with h | h
      · have hpq : p = q := by
          have := h
          simp only [Event.createRole.injEq] at this
          exact this.2.2.1
        rw [hpq]
        exact ⟨hqne, hq⟩
      · exact absurd h (by simp)

theorem C8_witness :
    Event.createRole (ext0.get_service "DATANODE" i1) (ext0.get_role_name i1 "DATANODE")
        "DATANODE" i1.fqdn ∈ _configure_instance ext0 i1 :=
  ((C8_theorem ext0 i1).1 "DATANODE" (by decide) (by decide)).1

theorem configureSwift_not_mem_add_role (ext : Ext) (inst : Instance) (p name : String) :
    Event.configureSwift name ∉ _add_role ext inst p := by
  unfold _add_role
  split <;> simp

theorem configureSwift_not_mem_configure_instance (ext : Ext) (inst : Instance)
    (name : String) :
    Event.configureSwift name ∉ _configure_instance ext inst := by
  intro h
  obtain ⟨q, _, hin⟩ := List.mem_flatMap.mp h
  exact configureSwift_not_mem_add_role ext inst q name hin

theorem configureSwift_not_mem_create_services (ext : Ext) (c : Cluster) (name : String) :
    Event.configureSwift name ∉ _create_services ext c := by
  unfold _create_services
  split_ifs <;> simp

theorem configureSwift_not_mem_configure_services (ext : Ext) (c : Cluster) (name : String) :
    Event.configureSwift name ∉ _configure_services ext c := by
  unfold _configure_services
  split_ifs <;> simp

/-- C10: for every non-empty delta set, `scale_cluster` applies the swift
bridge to every new instance unconditionally (for any collaborator record,
whatever `is_swift_enabled` returns), whereas `configure_cluster` applies
it to the cluster's instances iff swift is enabled. -/
theorem C10_theorem (ext : Ext) (cluster : Cluster) (instances : List Instance)
    (inst : Instance) (hmem : inst ∈ instances) :
    Event.configureSwift inst.instance_name ∈ scale_cluster ext cluster instances
    ∧ (ext.is_swift_enabled cluster = false →
        ∀ name, Event.configureSwift name ∉ configure_cluster ext cluster)
    ∧ (ext.is_swift_enabled cluster = true →
        ∀ i ∈ ext.get_instances cluster,
          Event.configureSwift i.instance_name ∈ configure_cluster ext cluster) := by
  refine ⟨?_, ?_, ?_⟩
  · cases instances with
    | nil => cases hmem
    | cons i0 rest =>
        unfold scale_cluster
        refine List.mem_append.mpr (Or.inr ?_)
        refine List.mem_flatMap.mpr ⟨inst, hmem, ?_⟩
        refine List.mem_append.mpr (Or.inl ?_)
        refine List.mem_append.mpr (Or.inl ?_)
        refine List.mem_append.mpr (Or.inr ?_)
        simp
  · intro hflag name h
    unfold configure_cluster at h
    rw [hflag] at h
    simp only [Bool.false_eq_true, if_false, List.append_nil, List.mem_append] at h
    rcases h with ((((((hpre | hagents) | hstart) | hcreate) | hconf) | hinst) | hlit)
    · revert hpre
      split_ifs <;> simp
    · simp at hagents
    · simp at hstart
    · exact configureSwift_not_mem_create_services ext cluster name hcreate
    · exact configureSwift_not_mem_configure_services ext cluster name hconf
    · obtain ⟨q, _, hin⟩ := List.mem_flatMap.mp hinst
      exact configureSwift_not_mem_configure_instance ext q name hin
    · simp at hlit
  · intro hflag i hi
    unfold configure_cluster
    rw [hflag]
    refine List.mem_append.mpr (Or.inr ?_)
    simp only [if_pos rfl]
    exact List.mem_map.mpr ⟨i, hi, rfl⟩

theorem C10_witness :
    Event.configureSwift i1.instance_name ∈ scale_cluster ext0 c0 [i1]
    ∧ (ext0.is_swift_enabled c0 = false →
        ∀ name, Event.configureSwift name ∉ configure_cluster ext0 c0)
    ∧ (ext0.is_swift_enabled c0 = true →
        ∀ i ∈ ext0.get_instances c0,
          Event.configureSwift i.instance_name ∈ configure_cluster ext0 c0) :=
  C10_theorem ext0 c0 [i1] i1 (by decide)

end Sahara
